import Mathlib

/-!
Verification of the bloomd Python server (NinthDecimal/bloomd) against its
natural-language specification.

Shallow embedding of `src/bloomd/conn_handler.py`, `src/bloomd/filters.py`
(identical to the `Filter`/`ProxyFilter`/`Counters` classes duplicated in
`src/bloomd/filter_manager.py`), `src/bloomd/filter_manager.py` and
`src/bloomd/counters.py`.

Conventions of the embedding:
* Python in-place mutation becomes explicit state passing; every operation
  returns its result together with the updated state.
* Python exceptions become `Except PyErr`; `KeyError` is distinguished
  because `conn_handler.py` catches it specifically.
* Disk writes are recorded both as a `WriteEvent` trace (so that "performs
  no writes" is expressible) and applied to an explicit `Disk` map.
* The external `pyblooming` dependency (not part of this repository) is
  modelled from the spec, section 4.3: an ordered chain of sub-filters,
  membership is an OR-scan, `add` pre-checks the whole chain and inserts
  into the tail only if the key is absent, returning the novelty signal.
  Hashing and false positives are idealized away (exact set membership),
  and the real-valued byte-sizing formula of section 4.2 is abstracted.
-/

namespace Bloomd

/-- Python-level exceptions. `keyError` is caught by the API handlers;
everything else propagates to the dispatcher as an internal error. -/
inductive PyErr
  | keyError
  | otherError
deriving DecidableEq, Repr

instance {ε α : Type} [DecidableEq ε] [DecidableEq α] : DecidableEq (Except ε α) :=
  fun a b =>
    match a, b with
    | .error x, .error y =>
      if h : x = y then .isTrue (congrArg Except.error h)
      else .isFalse (by intro hh; injection hh; exact h (by assumption))
    | .ok x, .ok y =>
      if h : x = y then .isTrue (congrArg Except.ok h)
      else .isFalse (by intro hh; injection hh; exact h (by assumption))
    | .error _, .ok _ => .isFalse (by intro hh; exact Except.noConfusion hh)
    | .ok _, .error _ => .isFalse (by intro hh; exact Except.noConfusion hh)

/-! ### Character/string helpers (Python `str` operations, over `List Char`) -/

/-- Python `str.split(sep)` for a single-character separator, no maxsplit. -/
def splitChar (sep : Char) : List Char → List (List Char)
  | [] => [[]]
  | c :: t =>
    match splitChar sep t with
    | [] => if c = sep then [[], []] else [[c]]
    | cur :: rest => if c = sep then [] :: cur :: rest else (c :: cur) :: rest

/-- Whitespace characters stripped by Python `str.strip()` (the common ones). -/
def isSpaceChar (c : Char) : Bool :=
  c = ' ' || c = '\t' || c = '\n' || c = '\r'

/-- Python `str.strip()`. -/
def pyStrip (s : String) : String :=
  String.mk (((s.data.dropWhile isSpaceChar).reverse.dropWhile isSpaceChar).reverse)

/-- Does the second list start with the first? -/
def leadsWith : List Char → List Char → Bool
  | [], _ => true
  | _ :: _, [] => false
  | a :: as1, b :: bs1 => a = b && leadsWith as1 bs1

/-- Python `sub in s` (substring containment) for nonempty `sub`. -/
def containsSubCL (sub : List Char) : List Char → Bool
  | [] => sub.isEmpty
  | c :: t => leadsWith sub (c :: t) || containsSubCL sub t

/-- Python `sub in s`. -/
def containsSub (s sub : String) : Bool :=
  containsSubCL sub.data s.data

/-- Fuel-driven core of `str.replace(sub, "")`: removes every
(leftmost-first, non-overlapping) occurrence of `sub`. -/
def removeAllAux (sub : List Char) : Nat → List Char → List Char
  | 0, _ => []
  | _ + 1, [] => []
  | fuel + 1, c :: t =>
    if sub ≠ [] && leadsWith sub (c :: t) then
      removeAllAux sub fuel (List.drop (sub.length - 1) t)
    else
      c :: removeAllAux sub fuel t

/-- Python `s.replace(sub, "")`. -/
def removeAll (s sub : String) : String :=
  String.mk (removeAllAux sub.data s.data.length s.data)

/-- Python `str` lexicographic order (by code point), as a Bool. -/
def charListLe : List Char → List Char → Bool
  | [], _ => true
  | _ :: _, [] => false
  | a :: as1, b :: bs1 =>
    if a = b then charListLe as1 bs1 else decide (a < b)

/-- `a <= b` on strings, Python ordering. -/
def strLe (a b : String) : Bool := charListLe a.data b.data

/-- Insertion into a list sorted by `strLe` on the first component. -/
def insertSorted (x : String × String) : List (String × String) → List (String × String)
  | [] => [x]
  | y :: t => if strLe x.1 y.1 then x :: y :: t else y :: insertSorted x t

/-- Stable sort of key/value pairs by key (Python `keys.sort()`). -/
def sortPairs (l : List (String × String)) : List (String × String) :=
  l.foldr insertSorted []

/-- Python `int(s)`: optional surrounding whitespace, optional sign, at
least one digit. -/
def pyInt (s : String) : Option Int :=
  let cs := (pyStrip s).data
  let core : List Char → Option Nat := fun ds =>
    if ds = [] then none
    else if ds.all Char.isDigit then
      some (ds.foldl (fun acc c => 10 * acc + (c.toNat - '0'.toNat)) 0)
    else none
  match cs with
  | '-' :: rest => (core rest).map (fun n => -(n : Int))
  | '+' :: rest => (core rest).map (fun n => (n : Int))
  | _ => (core cs).map (fun n => (n : Int))

/-- Digits of a char list read as a natural number, `none` if empty or
not all digits. -/
def digitsVal (ds : List Char) : Option Nat :=
  if ds = [] then none
  else if ds.all Char.isDigit then
    some (ds.foldl (fun acc c => 10 * acc + (c.toNat - '0'.toNat)) 0)
  else none

/-- Python `float(s)` for the decimal forms `[sign] d* [. d*] [(e|E) [sign] d+]`
(at least one mantissa digit), returned exactly as a rational.  The exotic
accepted forms (`inf`, `nan`, hex floats) and binary-float rounding are
abstracted away; no claim depends on them. -/
def pyRat (s : String) : Option Rat :=
  let cs := (pyStrip s).data
  let signed : List Char → (Bool × List Char) := fun l =>
    match l with
    | '-' :: rest => (true, rest)
    | '+' :: rest => (false, rest)
    | _ => (false, l)
  let (neg, cs1) := signed cs
  let (mant, expPart) :=
    match splitChar 'e' (cs1.map Char.toLower) with
    | [m] => (m, none)
    | [m, e] => (m, some e)
    | _ => ([], some [])
  let mantVal : Option Rat :=
    match splitChar '.' mant with
    | [ip] => (digitsVal ip).map (fun n => (n : Rat))
    | [ip, fp] =>
      if ip = [] && fp = [] then none
      else
        match digitsVal (ip ++ fp) with
        | some n => some ((n : Rat) / ((10 : Rat) ^ fp.length))
        | none => none
    | _ => none
  match mantVal, expPart with
  | some m, none => some (if neg then -m else m)
  | some m, some e =>
    let (eneg, ecs) := signed e
    match digitsVal ecs with
    | some ev =>
      let scaled := if eneg then m / ((10 : Rat) ^ ev) else m * ((10 : Rat) ^ ev)
      some (if neg then -scaled else scaled)
    | none => none
  | none, _ => none

/-- Association-list lookup with decidable string equality. -/
def assocFind? {α : Type} (l : List (String × α)) (k : String) : Option α :=
  match l with
  | [] => none
  | (k', v) :: t => if k' = k then some v else assocFind? t k

/-- Association-list update: replaces the first binding of `k`, or appends
one (Python `d[k] = v`). -/
def assocSet {α : Type} (l : List (String × α)) (k : String) (v : α) : List (String × α) :=
  match l with
  | [] => [(k, v)]
  | (k', v') :: t => if k' = k then (k, v) :: t else (k', v') :: assocSet t k v

/-- Association-list removal (Python `del d[k]`). -/
def assocErase {α : Type} (l : List (String × α)) (k : String) : List (String × α) :=
  match l with
  | [] => []
  | (k', v') :: t => if k' = k then t else (k', v') :: assocErase t k

/-- `os.path.join` for the two-component uses in the source. -/
def joinPath (a b : String) : String := a ++ "/" ++ b

/-! ### Configuration (`src/bloomd/config.py` DEFAULTS plus the advisory
`size`/`capacity`/`byte_size` keys that `Filter.flush` adds to a filter's
config dict).  The config is a Python dict; the three advisory keys are
absent until first written, hence `Option`. -/

structure BloomConfig where
  data_dir : String
  initial_capacity : Nat
  default_probability : Rat
  scale_size : Nat
  probability_reduction : Rat
  flush_interval : Nat
  size : Option Nat
  capacity : Option Nat
  byte_size : Option Nat
deriving DecidableEq, Repr

/-- A partial config dict: either the `custom` overrides handed to
`create` (only `initial_capacity` / `default_probability` may be present)
or the pickled contents of an on-disk `config` file. -/
structure CustomConfig where
  initial_capacity : Option Nat := none
  default_probability : Option Rat := none
  size : Option Nat := none
  capacity : Option Nat := none
  byte_size : Option Nat := none
deriving DecidableEq, Repr

/-- `some`-biased choice: Python `dict.update` keeps the override when the
override dict carries the key. -/
def ovr {α : Type} (u b : Option α) : Option α :=
  match u with
  | some v => some v
  | none => b

/-- Python `self.config.update(custom)`. -/
def BloomConfig.update (c : BloomConfig) (u : CustomConfig) : BloomConfig :=
  { c with
    initial_capacity := u.initial_capacity.getD c.initial_capacity
    default_probability := u.default_probability.getD c.default_probability
    size := ovr u.size c.size
    capacity := ovr u.capacity c.capacity
    byte_size := ovr u.byte_size c.byte_size }

/-- The full config dict as serialized by `Filter.flush` (`cPickle.dumps`). -/
def dumpConfig (c : BloomConfig) : CustomConfig :=
  { initial_capacity := some c.initial_capacity
    default_probability := some c.default_probability
    size := c.size
    capacity := c.capacity
    byte_size := c.byte_size }

/-- `config.py` DEFAULTS (fields relevant to the model). -/
def defaultConfig : BloomConfig :=
  { data_dir := "/tmp/bloomd"
    initial_capacity := 1000 * 1000
    default_probability := mkRat 1 10000
    scale_size := 4
    probability_reduction := mkRat 9 10
    flush_interval := 60
    size := none
    capacity := none
    byte_size := none }

/-! ### Counters (`src/bloomd/counters.py`, duplicated in
`filter_manager.py`) -/

structure Counters where
  set_hits : Nat := 0
  set_misses : Nat := 0
  check_hits : Nat := 0
  check_misses : Nat := 0
  page_outs : Nat := 0
  page_ins : Nat := 0
deriving DecidableEq, Repr

def Counters.sets (c : Counters) : Nat := c.set_hits + c.set_misses

def Counters.checks (c : Counters) : Nat := c.check_hits + c.check_misses

def Counters.dict (c : Counters) : List (String × String) :=
  [("set_hits", toString c.set_hits), ("set_misses", toString c.set_misses),
   ("check_hits", toString c.check_hits), ("check_misses", toString c.check_misses),
   ("checks", toString c.checks), ("sets", toString c.sets),
   ("page_outs", toString c.page_outs), ("page_ins", toString c.page_ins)]

/-! ### pyblooming (external dependency).

Modelled from the spec: `pyblooming.ScalingBloomFilter` is an external
library, not part of this repository; spec sections 4.2 and 4.3 give its
contract.  A sub-filter is idealized as the exact set of its keys (no
false positives); the real-valued bit-sizing formula of section 4.2 is
abstracted by `byteSizeOf`, whose exact value no claim depends on. -/

structure SubFilter where
  keys : List String
  capacity : Nat
  byteSize : Nat
deriving DecidableEq, Repr

/-- Abstraction of the section 4.2 sizing formula
`m = ceil(-n ln p / (ln 2)^2)` bytes plus header: a concrete monotone
stand-in, since the formula is real-valued.  No claim inspects the value. -/
def byteSizeOf (cap : Nat) : Nat := cap

structure ScalingBloomFilter where
  chain : List SubFilter
  scale_size : Nat
deriving DecidableEq, Repr

namespace ScalingBloomFilter

/-- Membership: OR-scan of every sub-filter (spec section 4.3). -/
def contains (sf : ScalingBloomFilter) (k : String) : Bool :=
  sf.chain.any (fun s => s.keys.contains k)

/-- `len`: total size, summed across the chain. -/
def size (sf : ScalingBloomFilter) : Nat :=
  (sf.chain.map (fun s => s.keys.length)).sum

/-- `total_capacity()`: summed across the chain. -/
def total_capacity (sf : ScalingBloomFilter) : Nat :=
  (sf.chain.map (fun s => s.capacity)).sum

/-- `total_bitmap_size()`: summed across the chain. -/
def total_bitmap_size (sf : ScalingBloomFilter) : Nat :=
  (sf.chain.map (fun s => s.byteSize)).sum

/-- Spec section 4.3, insertion step 1: if the tail is saturated, append a
new tail with `scale_size` times its capacity. -/
def scaleStep (sf : ScalingBloomFilter) : ScalingBloomFilter :=
  let t := sf.chain.getLastD ⟨[], 0, 0⟩
  if t.capacity ≤ t.keys.length then
    { sf with chain := sf.chain ++ [⟨[], sf.scale_size * t.capacity, sf.scale_size * t.byteSize⟩] }
  else sf

/-- Insert a key into the tail sub-filter. -/
def pushTail (sf : ScalingBloomFilter) (k : String) : ScalingBloomFilter :=
  let t := sf.chain.getLastD ⟨[], 0, 0⟩
  { sf with chain := sf.chain.dropLast ++ [{ t with keys := t.keys ++ [k] }] }

/-- Spec section 4.3, insertion: scale if needed, then pre-check the whole
chain; a present key returns `false` untouched, an absent key goes into
the tail and returns `true` (the novelty signal). -/
def add (sf : ScalingBloomFilter) (k : String) : Bool × ScalingBloomFilter :=
  let sf1 := scaleStep sf
  if sf1.contains k then (false, sf1) else (true, sf1.pushTail k)

end ScalingBloomFilter

/-- A fresh or rediscovered chain (`Filter._create_filter`): adopt the
recovered sub-filters when there are any, otherwise start a fresh chain
with one empty sub-filter of the configured initial capacity. -/
def mkScaling (c : BloomConfig) (mm : List SubFilter) : ScalingBloomFilter :=
  if mm.isEmpty then
    { chain := [⟨[], c.initial_capacity, byteSizeOf c.initial_capacity⟩],
      scale_size := c.scale_size }
  else
    { chain := mm, scale_size := c.scale_size }

/-! ### On-disk state -/

/-- The `config` file of a filter directory: a pickled dict, or bytes that
`cPickle.loads` rejects. -/
inductive ConfigFile
  | stored (c : CustomConfig)
  | corrupt
deriving DecidableEq, Repr

/-- Contents of one filter directory: the `data.NNN.mmap` images in sorted
filename order, and the optional `config` file. -/
structure DirData where
  mmaps : List SubFilter
  configFile : Option ConfigFile
deriving DecidableEq, Repr

/-- The filesystem, keyed by directory full path. -/
def Disk : Type := List (String × DirData)

instance : DecidableEq Disk := by
  unfold Disk
  infer_instance

instance : Repr Disk := by
  unfold Disk
  infer_instance

/-- Disk writes, recorded as a trace so that "performs no writes" is a
statement about the code, then applied to the `Disk`. -/
inductive WriteEvent
  | mkdirEv (dir : String)
  | configWrite (dir : String) (c : CustomConfig)
  | mmapFlush (dir : String) (mm : List SubFilter)
  | mmapClose (dir : String)
  | removeAllFiles (dir : String)
deriving DecidableEq, Repr

def applyEvent (d : Disk) (e : WriteEvent) : Disk :=
  match e with
  | .mkdirEv p =>
    match assocFind? d p with
    | some _ => d
    | none => assocSet d p ⟨[], none⟩
  | .configWrite p c =>
    match assocFind? d p with
    | some dd => assocSet d p { dd with configFile := some (.stored c) }
    | none => assocSet d p ⟨[], some (.stored c)⟩
  | .mmapFlush p mm =>
    match assocFind? d p with
    | some dd => assocSet d p { dd with mmaps := mm }
    | none => assocSet d p ⟨mm, none⟩
  | .mmapClose _ => d
  | .removeAllFiles p => assocErase d p

def applyEvents (d : Disk) (evs : List WriteEvent) : Disk :=
  evs.foldl applyEvent d

/-! ### Filter (`src/bloomd/filters.py` lines 10-124; byte-identical class
duplicated at `src/bloomd/filter_manager.py` lines 177-291) -/

structure Filter where
  config : BloomConfig
  path : String
  filt : Option ScalingBloomFilter
  dirty : Bool
  counters : Counters
deriving DecidableEq, Repr

/-- `Filter.__init__` with `discover=True` (the only mode the callers in
this repository use): rediscover the chain from the directory's mmap
files, start dirty, fresh counters with one page-in. -/
def Filter.mk_discover (gconf : BloomConfig) (path : String)
    (custom : Option CustomConfig) (disk : Disk) : Filter :=
  let c := match custom with
    | none => gconf
    | some u => gconf.update u
  let mm := match assocFind? disk path with
    | some dd => dd.mmaps
    | none => []
  { config := c, path := path, filt := some (mkScaling c mm),
    dirty := true, counters := { page_ins := 1 } }

/-- `Filter.__len__`; raises on a closed filter (`len(None)`). -/
def Filter.size? (f : Filter) : Except PyErr Nat :=
  match f.filt with
  | some s => .ok s.size
  | none => .error .otherError

/-- `Filter.capacity`; raises on a closed filter. -/
def Filter.capacity? (f : Filter) : Except PyErr Nat :=
  match f.filt with
  | some s => .ok s.total_capacity
  | none => .error .otherError

/-- `Filter.byte_size`; raises on a closed filter. -/
def Filter.byte_size? (f : Filter) : Except PyErr Nat :=
  match f.filt with
  | some s => .ok s.total_bitmap_size
  | none => .error .otherError

/-- `Filter.__contains__`: delegate, then bump `check_hits`/`check_misses`. -/
def Filter.contains (f : Filter) (k : String) : Except PyErr (Bool × Filter) :=
  match f.filt with
  | none => .error .otherError
  | some s =>
    let res := s.contains k
    let cs := if res then { f.counters with check_hits := f.counters.check_hits + 1 }
              else { f.counters with check_misses := f.counters.check_misses + 1 }
    .ok (res, { f with counters := cs })

/-- `Filter.add`: mark dirty first (unconditionally, line 108 of
`filters.py`), delegate, then bump `set_hits`/`set_misses` by the returned
novelty. -/
def Filter.add (f : Filter) (k : String) : Except PyErr (Bool × Filter) :=
  match f.filt with
  | none => .error .otherError
  | some s =>
    let (res, s') := s.add k
    let cs := if res then { f.counters with set_hits := f.counters.set_hits + 1 }
              else { f.counters with set_misses := f.counters.set_misses + 1 }
    .ok (res, { f with dirty := true, filt := some s', counters := cs })

/-- `Filter.flush`: nothing on a clean filter; on a dirty one refresh the
advisory config keys, write the config file, sync the mmaps, clear
`dirty`.  (A dirty closed filter would raise at `len(self)`; that state is
unreachable because closing flushes first.) -/
def Filter.flush (f : Filter) : Except PyErr (Filter × List WriteEvent) :=
  if f.dirty = false then .ok (f, [])
  else
    match f.filt with
    | none => .error .otherError
    | some s =>
      let c := { f.config with
        size := some s.size
        capacity := some s.total_capacity
        byte_size := some s.total_bitmap_size }
      .ok ({ f with config := c, dirty := false },
        [.configWrite f.path (dumpConfig c), .mmapFlush f.path s.chain])

/-- `Filter.close`: flush, then drop the mmaps. -/
def Filter.close (f : Filter) : Except PyErr (Filter × List WriteEvent) :=
  match f.flush with
  | .error e => .error e
  | .ok (f1, ev) =>
    match f1.filt with
    | none => .ok (f1, ev)
    | some _ => .ok ({ f1 with filt := none }, ev ++ [.mmapClose f1.path])

/-- `Filter.delete`: close, then remove the mmap and config files and the
directory. -/
def Filter.delete (f : Filter) : Except PyErr (Filter × List WriteEvent) :=
  match f.close with
  | .error e => .error e
  | .ok (f1, ev) => .ok (f1, ev ++ [.removeAllFiles f1.path])

/-! ### ProxyFilter (`src/bloomd/filters.py` lines 127-174; duplicated at
`filter_manager.py` lines 294-341) -/

structure ProxyFilter where
  config : BloomConfig
  path : String
  counters : Counters
deriving DecidableEq, Repr

/-- `ProxyFilter.__init__`: copy the config, default the advisory keys
(`size` 0, `capacity` the initial capacity, `byte_size` 0), then apply the
custom settings on top. -/
def mkProxyFilter (conf : BloomConfig) (path : String)
    (custom : Option CustomConfig) : ProxyFilter :=
  let c1 := { conf with
    size := some (conf.size.getD 0)
    capacity := some (conf.capacity.getD conf.initial_capacity)
    byte_size := some (conf.byte_size.getD 0) }
  let c2 := match custom with
    | none => c1
    | some u => c1.update u
  { config := c2, path := path, counters := {} }

/-- `ProxyFilter.__len__`: the cached advisory size. -/
def ProxyFilter.size (p : ProxyFilter) : Nat := p.config.size.getD 0

/-- `ProxyFilter.capacity` (via `__getattribute__`): the cached value. -/
def ProxyFilter.capacity (p : ProxyFilter) : Nat := p.config.capacity.getD 0

/-- `ProxyFilter.byte_size` (via `__getattribute__`): the cached value. -/
def ProxyFilter.byte_size (p : ProxyFilter) : Nat := p.config.byte_size.getD 0

/-- `ProxyFilter.flush` is hijacked to `lambda: None`: no state change, no
writes. -/
def ProxyFilter.flush (p : ProxyFilter) : ProxyFilter × List WriteEvent := (p, [])

/-- `ProxyFilter.close` is hijacked to `lambda: None`: no state change, no
writes. -/
def ProxyFilter.close (p : ProxyFilter) : ProxyFilter × List WriteEvent := (p, [])

/-- `ProxyFilter.delete`: remove the files and the directory (no close
needed, nothing is mapped). -/
def ProxyFilter.delete (p : ProxyFilter) : List WriteEvent := [.removeAllFiles p.path]

/-! ### FilterManager (`src/bloomd/filter_manager.py` lines 24-150) -/

/-- A registry entry: a live filter or a paged-out proxy. -/
inductive Entry
  | active (f : Filter)
  | proxy (p : ProxyFilter)
deriving DecidableEq, Repr

/-- `FILTER_PREFIX = "bloomd."`. -/
def filtPfx : String := "bloomd."

/-- `load_custom_settings` (`filter_manager.py` lines 17-22): `None` when
the `config` file does not exist, the unpickled dict otherwise; corrupt
contents make `cPickle.loads` raise. -/
def load_custom_settings (disk : Disk) (full_path : String) :
    Except PyErr (Option CustomConfig) :=
  match assocFind? disk full_path with
  | none => .ok none
  | some dd =>
    match dd.configFile with
    | none => .ok none
    | some (.stored c) => .ok (some c)
    | some .corrupt => .error .otherError

/-- One entry of `os.listdir(data_dir)`. -/
structure DirEntry where
  name : String
  isDir : Bool
deriving DecidableEq, Repr

/-- Is a listing entry one that `_discover_filters` acts on? -/
def eligibleEntry (e : DirEntry) : Bool :=
  containsSub e.name filtPfx && e.isDir

/-- The loop body of `FilterManager._discover_filters` (lines 34-50): skip
entries without the prefix and non-directories, load the custom settings
(an exception propagates, there is no try/except around the loop), and
register a `ProxyFilter` under the stripped name. -/
def discoverGo (conf : BloomConfig) (disk : Disk)
    (fs : List (String × Entry)) :
    List DirEntry → Except PyErr (List (String × Entry))
  | [] => .ok fs
  | e :: rest =>
    if containsSub e.name filtPfx = false then discoverGo conf disk fs rest
    else
      let full := joinPath conf.data_dir e.name
      if e.isDir = false then discoverGo conf disk fs rest
      else
        match load_custom_settings disk full with
        | .error err => .error err
        | .ok custom =>
          let fname := removeAll e.name filtPfx
          discoverGo conf disk
            (assocSet fs fname (.proxy (mkProxyFilter conf full custom))) rest

/-- `FilterManager._discover_filters`. -/
def discoverFilters (conf : BloomConfig) (listing : List DirEntry)
    (disk : Disk) : Except PyErr (List (String × Entry)) :=
  discoverGo conf disk [] listing

structure FilterManager where
  config : BloomConfig
  filters : List (String × Entry)
  hot_filters : List String
deriving DecidableEq, Repr

/-- `FilterManager.__init__`: discover, start with an empty hot set.  A
discovery exception propagates out of the constructor. -/
def mkFilterManager (conf : BloomConfig) (listing : List DirEntry)
    (disk : Disk) : Except PyErr FilterManager :=
  match discoverFilters conf listing disk with
  | .error e => .error e
  | .ok fs => .ok { config := conf, filters := fs, hot_filters := [] }

/-- Set-insertion into the hot set (`self.hot_filters.add(name)`). -/
def insertName (l : List String) (k : String) : List String :=
  if l.contains k then l else k :: l

/-- `FilterManager.__getitem__` (lines 112-115): the key goes into the hot
set first, the registry lookup happens after (and may raise `KeyError`). -/
def FilterManager.getitem (m : FilterManager) (key : String) :
    Except PyErr Entry × FilterManager :=
  let m' := { m with hot_filters := insertName m.hot_filters key }
  (match assocFind? m'.filters key with
   | some e => .ok e
   | none => .error .keyError, m')

/-- `FilterManager.__contains__`. -/
def FilterManager.hasName (m : FilterManager) (k : String) : Bool :=
  (assocFind? m.filters k).isSome

/-- The whole mutable world: the filesystem and the manager singleton. -/
structure SysState where
  disk : Disk
  mgr : FilterManager
deriving DecidableEq, Repr

/-- `FilterManager.create_filter` (lines 52-59): make the directory if
missing, construct a `Filter` by discovery over it, overwrite the registry
entry and mark it hot.  There is no duplicate-name check and the previous
entry, if any, is neither flushed nor closed. -/
def createFilter (st : SysState) (name : String) (custom : Option CustomConfig) :
    Filter × SysState × List WriteEvent :=
  let path := joinPath st.mgr.config.data_dir (filtPfx ++ name)
  let (disk1, evs) := match assocFind? st.disk path with
    | some _ => (st.disk, ([] : List WriteEvent))
    | none => (assocSet st.disk path ⟨[], none⟩, [.mkdirEv path])
  let filt := Filter.mk_discover st.mgr.config path custom disk1
  (filt,
   { disk := disk1,
     mgr := { st.mgr with
       filters := assocSet st.mgr.filters name (.active filt)
       hot_filters := insertName st.mgr.hot_filters name } },
   evs)

/-- The loop body of `FilterManager._unmap_cold` (lines 84-110): hot names
and proxies stay; a cold active filter is closed and replaced by a
`ProxyFilter` built from its (post-close) config, carrying its counters
with one more page-out. -/
def unmapEntries (hot : List String) :
    List (String × Entry) → Except PyErr (List (String × Entry) × List WriteEvent)
  | [] => .ok ([], [])
  | (n, e) :: rest =>
    match unmapEntries hot rest with
    | .error err => .error err
    | .ok (rest', evs) =>
      if hot.contains n then .ok ((n, e) :: rest', evs)
      else
        match e with
        | .proxy _ => .ok ((n, e) :: rest', evs)
        | .active f =>
          match f.close with
          | .error err => .error err
          | .ok (f1, ev) =>
            let pf := { mkProxyFilter f1.config f1.path none with
              counters := { f1.counters with page_outs := f1.counters.page_outs + 1 } }
            .ok ((n, .proxy pf) :: rest', ev ++ evs)

/-- `FilterManager._unmap_cold`: page the cold entries out, then clear the
hot set. -/
def unmapCold (st : SysState) : Except PyErr SysState :=
  match unmapEntries st.mgr.hot_filters st.mgr.filters with
  | .error e => .error e
  | .ok (fs, evs) =>
    .ok { disk := applyEvents st.disk evs,
          mgr := { st.mgr with filters := fs, hot_filters := [] } }

/-- `FilterManager._flush` (the scheduled flush, lines 75-82): flush every
entry in registry order. -/
def flushAllEntries (st : SysState) :
    Except PyErr SysState :=
  let rec go (disk : Disk) :
      List (String × Entry) → Except PyErr (List (String × Entry) × Disk)
    | [] => .ok ([], disk)
    | (n, .proxy p) :: rest =>
      match go disk rest with
      | .error e => .error e
      | .ok (rest', d') => .ok ((n, .proxy p) :: rest', d')
    | (n, .active f) :: rest =>
      match f.flush with
      | .error e => .error e
      | .ok (f1, ev) =>
        match go (applyEvents disk ev) rest with
        | .error e => .error e
        | .ok (rest', d') => .ok ((n, .active f1) :: rest', d')
  match go st.disk st.mgr.filters with
  | .error e => .error e
  | .ok (fs, d') => .ok { disk := d', mgr := { st.mgr with filters := fs } }

/-- `FilterManager.__delitem__` (lines 125-131): silently return when the
name is unknown, otherwise close the entry, delete its files and
unregister it.  `conn_handler.drop` calls this through the manager's
`drop_filter`, which is absent from `src`.

Modelled from the spec: `drop_filter` is only called, never defined, under
`src`; spec section 4.5 `drop(name)` ("close the entry, delete its on-disk
files, and unregister") coincides with the in-`src` `__delitem__`, which
this definition follows. -/
def dropFilter (st : SysState) (name : String) : Except PyErr SysState :=
  match assocFind? st.mgr.filters name with
  | none => .ok st
  | some (.active f) =>
    match f.delete with
    | .error e => .error e
    | .ok (_, evs) =>
      .ok { disk := applyEvents st.disk evs,
            mgr := { st.mgr with filters := assocErase st.mgr.filters name } }
  | some (.proxy p) =>
    .ok { disk := applyEvents st.disk p.delete,
          mgr := { st.mgr with filters := assocErase st.mgr.filters name } }

/-- `FilterManager.unmap` (lines 133-138): close the entry and unregister
it, keeping the on-disk files.  `conn_handler.close` calls this through
`unmap_filter`, which is absent from `src`.

Modelled from the spec: `unmap_filter` is only called, never defined,
under `src`; spec section 4.5 `close(name)` ("like drop but preserves
on-disk files") coincides with the in-`src` `unmap`, which this definition
follows. -/
def unmapFilter (st : SysState) (name : String) : Except PyErr SysState :=
  match assocFind? st.mgr.filters name with
  | none => .ok st
  | some (.active f) =>
    match f.close with
    | .error e => .error e
    | .ok (_, evs) =>
      .ok { disk := applyEvents st.disk evs,
            mgr := { st.mgr with filters := assocErase st.mgr.filters name } }
  | some (.proxy _) =>
    .ok { mgr := { st.mgr with filters := assocErase st.mgr.filters name },
          disk := st.disk }

/-- Modelled from the spec: `flush_filter` is only called, never defined,
under `src`.  Spec section 4.5: "flush_filter(name): per-name read-lock,
then delegate"; an unknown name raises `KeyError` (the callers in
`conn_handler.py` catch exactly that).  A proxy's flush is the hijacked
no-op. -/
def flushFilter (st : SysState) (name : String) : Except PyErr SysState :=
  match assocFind? st.mgr.filters name with
  | none => .error .keyError
  | some (.proxy _) => .ok st
  | some (.active f) =>
    match f.flush with
    | .error e => .error e
    | .ok (f1, evs) =>
      .ok { disk := applyEvents st.disk evs,
            mgr := { st.mgr with
              filters := assocSet st.mgr.filters name (.active f1) } }

/-- `ProxyFilter._fault_attr` (the state part): rebuild a live `Filter` by
discovery over the proxy's directory with the proxy's config, carry the
counters over with one more page-in, and install it in the registry. -/
def faultIn (st : SysState) (name : String) (p : ProxyFilter) : Filter × SysState :=
  let f0 := Filter.mk_discover p.config p.path none st.disk
  let f := { f0 with counters := { p.counters with page_ins := p.counters.page_ins + 1 } }
  (f, { st with mgr := { st.mgr with
          filters := assocSet st.mgr.filters name (.active f) } })

/-- Run a per-key filter operation left to right, threading the filter. -/
def runKeys (op : Filter → String → Except PyErr (Bool × Filter)) (f : Filter) :
    List String → Except PyErr (List Bool × Filter)
  | [] => .ok ([], f)
  | k :: ks =>
    match op f k with
    | .error e => .error e
    | .ok (b, f1) =>
      match runKeys op f1 ks with
      | .error e => .error e
      | .ok (bs, f2) => .ok (b :: bs, f2)

/-- Shared body of the key-wise manager operations: fetch through
`__getitem__` (which marks the name hot and may raise `KeyError`), fault a
proxy in, run the per-key operation, and store the updated filter back. -/
def keyedOp (op : Filter → String → Except PyErr (Bool × Filter))
    (st : SysState) (name : String) (keys : List String) :
    Except PyErr (List Bool) × SysState :=
  let (r, m1) := st.mgr.getitem name
  let st1 := { st with mgr := m1 }
  match r with
  | .error e => (.error e, st1)
  | .ok entry =>
    let (f, st2) := match entry with
      | .active f => (f, st1)
      | .proxy p => faultIn st1 name p
    match runKeys op f keys with
    | .error e => (.error e, st2)
    | .ok (bs, f') =>
      (.ok bs,
       { st2 with mgr := { st2.mgr with
           filters := assocSet st2.mgr.filters name (.active f') } })

/-- Modelled from the spec: `check_keys` is only called, never defined,
under `src`.  Spec section 4.5: "check_keys(name, [k1..kn]) -> [bool]:
under the per-name read-lock, mark hot, return per-key membership",
raising on a missing name.  Locking is immaterial in this sequential
embedding; marking hot goes through `__getitem__` as every manager lookup
does. -/
def checkKeys (st : SysState) (name : String) (keys : List String) :
    Except PyErr (List Bool) × SysState :=
  keyedOp Filter.contains st name keys

/-- Modelled from the spec: `set_keys` is only called, never defined,
under `src`.  Spec section 4.5: "set_keys(name, [k1..kn]) -> [bool]: same
locking discipline; returns per-key novelty". -/
def setKeys (st : SysState) (name : String) (keys : List String) :
    Except PyErr (List Bool) × SysState :=
  keyedOp Filter.add st name keys

/-! ### APIHandler (`src/bloomd/conn_handler.py` lines 15-207) -/

/-- One character of the class `[a-zA-Z0-9._]`. -/
def validChar (c : Char) : Bool :=
  ('a' ≤ c && c ≤ 'z') || ('A' ≤ c && c ≤ 'Z') || ('0' ≤ c && c ≤ '9')
    || c = '.' || c = '_'

/-- Truthiness of `VALID_NAMES.match(name)` where
`VALID_NAMES = re.compile("[a-zA-Z0-9._]+")`: Python `re.match` anchors at
the start only and succeeds on any nonempty matching prefix, so the test
passes exactly when the name is nonempty and its first character is in
the class. -/
def validNameMatch (name : String) : Bool :=
  match name.data with
  | [] => false
  | c :: _ => validChar c

/-- Python `s.split(" ")` (no maxsplit). -/
def pySplitSp (s : String) : List String :=
  (splitChar ' ' s.data).map String.mk

def joinSpacesCL : List (List Char) → List Char
  | [] => []
  | [x] => x
  | x :: y :: t => x ++ ' ' :: joinSpacesCL (y :: t)

/-- Python `s.split(" ", 2)`: at most three parts, the third unsplit. -/
def pySplit2 (s : String) : List String :=
  match splitChar ' ' s.data with
  | a :: b :: c :: rest => [String.mk a, String.mk b, String.mk (joinSpacesCL (c :: rest))]
  | xs => xs.map String.mk

/-- `" ".join(parts)`. -/
def joinSpaceStr : List String → String
  | [] => ""
  | [x] => x
  | x :: y :: t => x ++ " " ++ joinSpaceStr (y :: t)

/-- Yes/No rendering of a boolean reply token. -/
def yesNo (b : Bool) : String := if b then "Yes" else "No"

/-- Abstraction of Python `str(float)`; no claim inspects the rendering. -/
def ratStr (q : Rat) : String := toString q

/-- A handler's return value, as discriminated by `lineReceived`:
a plain string, a list, or a dict. -/
inductive ApiResult
  | str (s : String)
  | items (l : List String)
  | dict (l : List (String × String))
deriving DecidableEq, Repr

/-- The override-parsing block of `APIHandler.create` (lines 34-53):
split the second token on spaces, parse the capacity as `int` and the
probability as `float`; a parse failure (`ValueError`) or a hard
validation failure (`EnvironmentError` from `sane_initial_capacity` /
`sane_probability` in `config.py`) yields the corresponding
`Client Error`; the soft `Warning` cases pass. -/
def parseCreateArgs (rest : List String) : Except String (Option CustomConfig) :=
  match rest with
  | [] => .ok none
  | argstr :: _ =>
    let sub := pySplitSp argstr
    match pyInt (sub.headD "") with
    | none => .error "Client Error: Bad initial capacity!"
    | some cap =>
      if cap < 1000 then .error "Client Error: Bad initial capacity!"
      else
        let c1 : CustomConfig := { initial_capacity := some cap.toNat }
        match sub.get? 1 with
        | none => .ok (some c1)
        | some a1 =>
          match pyRat a1 with
          | none => .error "Client Error: Bad false positive probability!"
          | some p =>
            if 1 ≤ p || p ≤ 0 then
              .error "Client Error: Bad false positive probability!"
            else .ok (some { c1 with default_probability := some p })

/-- `APIHandler.create` (lines 20-56): name presence check, `re.match`
name validation, duplicate check against the manager, optional overrides,
then `create_filter`. -/
def apiCreate (st : SysState) (args : List String) :
    Except PyErr ApiResult × SysState :=
  match args with
  | [] => (.ok (.str "Client Error: Must provide filter name"), st)
  | name :: rest =>
    if validNameMatch name = false then
      (.ok (.str "Client Error: Bad filter name"), st)
    else if st.mgr.hasName name then (.ok (.str "Exists"), st)
    else
      match parseCreateArgs rest with
      | .error msg => (.ok (.str msg), st)
      | .ok custom =>
        let (_, st', _) := createFilter st name custom
        (.ok (.str "Done"), st')

/-- The row `prob storage capacity size` that `APIHandler.list` builds for
one entry; `none` when reading the entry raised (it is then skipped). -/
def listRow : Entry → Option String
  | .active f =>
    match f.filt with
    | none => none
    | some s =>
      some (joinSpaceStr [ratStr f.config.default_probability,
        toString s.total_bitmap_size, toString s.total_capacity, toString s.size])
  | .proxy p =>
    some (joinSpaceStr [ratStr p.config.default_probability,
      toString p.byte_size, toString p.capacity, toString p.size])

/-- `APIHandler.list` (lines 58-72). -/
def apiList (st : SysState) (_args : List String) :
    Except PyErr ApiResult × SysState :=
  let rows := st.mgr.filters.foldr
    (fun kv acc =>
      match listRow kv.2 with
      | some s => (kv.1, s) :: acc
      | none => acc) []
  (.ok (.dict rows), st)

/-- `APIHandler.drop` (lines 74-83). -/
def apiDrop (st : SysState) (args : List String) :
    Except PyErr ApiResult × SysState :=
  match args with
  | [] => (.ok (.str "Client Error: Must provide filter name"), st)
  | name :: _ =>
    if st.mgr.hasName name = false then (.ok (.str "Filter does not exist"), st)
    else
      match dropFilter st name with
      | .error .keyError => (.ok (.str "Filter does not exist"), st)
      | .error e => (.error e, st)
      | .ok st' => (.ok (.str "Done"), st')

/-- `APIHandler.close` (lines 85-94). -/
def apiClose (st : SysState) (args : List String) :
    Except PyErr ApiResult × SysState :=
  match args with
  | [] => (.ok (.str "Client Error: Must provide filter name"), st)
  | name :: _ =>
    if st.mgr.hasName name = false then (.ok (.str "Filter does not exist"), st)
    else
      match unmapFilter st name with
      | .error .keyError => (.ok (.str "Filter does not exist"), st)
      | .error e => (.error e, st)
      | .ok st' => (.ok (.str "Done"), st')

/-- `APIHandler.check` (lines 100-109). -/
def apiCheck (st : SysState) (args : List String) :
    Except PyErr ApiResult × SysState :=
  match args with
  | name :: key :: _ =>
    match checkKeys st name [key] with
    | (.error .keyError, st') => (.ok (.str "Filter does not exist"), st')
    | (.error e, st') => (.error e, st')
    | (.ok bs, st') => (.ok (.str (yesNo (bs.headD false))), st')
  | _ => (.ok (.str "Client Error: Must provide filter name and key"), st)

/-- `APIHandler.multi` (lines 115-125). -/
def apiMulti (st : SysState) (args : List String) :
    Except PyErr ApiResult × SysState :=
  match args with
  | name :: keystr :: _ =>
    match checkKeys st name (pySplitSp (pyStrip keystr)) with
    | (.error .keyError, st') => (.ok (.str "Filter does not exist"), st')
    | (.error e, st') => (.error e, st')
    | (.ok bs, st') => (.ok (.str (joinSpaceStr (bs.map yesNo))), st')
  | _ => (.ok (.str "Client Error: Must provide filter name and at least one key"), st)

/-- `APIHandler.set` (lines 131-140). -/
def apiSet (st : SysState) (args : List String) :
    Except PyErr ApiResult × SysState :=
  match args with
  | name :: key :: _ =>
    match setKeys st name [key] with
    | (.error .keyError, st') => (.ok (.str "Filter does not exist"), st')
    | (.error e, st') => (.error e, st')
    | (.ok bs, st') => (.ok (.str (yesNo (bs.headD false))), st')
  | _ => (.ok (.str "Client Error: Must provide filter name and key"), st)

/-- `APIHandler.bulk` (lines 146-156). -/
def apiBulk (st : SysState) (args : List String) :
    Except PyErr ApiResult × SysState :=
  match args with
  | name :: keystr :: _ =>
    match setKeys st name (pySplitSp (pyStrip keystr)) with
    | (.error .keyError, st') => (.ok (.str "Filter does not exist"), st')
    | (.error e, st') => (.error e, st')
    | (.ok bs, st') => (.ok (.str (joinSpaceStr (bs.map yesNo))), st')
  | _ => (.ok (.str "Client Error: Must provide filter name and at least one key"), st)

/-- `APIHandler.c` (lines 96-98): alias of `check`. -/
def apiC (st : SysState) (args : List String) : Except PyErr ApiResult × SysState :=
  apiCheck st args

/-- `APIHandler.m` (lines 111-113): the body is `return cls.bulk(*args)` -
it dispathes to `bulk` (an insertion), not to `multi`. -/
def apiM (st : SysState) (args : List String) : Except PyErr ApiResult × SysState :=
  apiBulk st args

/-- `APIHandler.s` (lines 127-129): alias of `set`. -/
def apiS (st : SysState) (args : List String) : Except PyErr ApiResult × SysState :=
  apiSet st args

/-- `APIHandler.b` (lines 142-144): alias of `bulk`. -/
def apiB (st : SysState) (args : List String) : Except PyErr ApiResult × SysState :=
  apiBulk st args

/-- The per-entry body of `APIHandler.info`: the four summary rows plus
the counters dict; reading a closed filter raises (propagating to the
dispatcher). -/
def infoRows : Entry → Except PyErr (List (String × String))
  | .active f =>
    match f.filt with
    | none => .error .otherError
    | some s =>
      .ok ([("probability", ratStr f.config.default_probability),
            ("storage", toString s.total_bitmap_size),
            ("capacity", toString s.total_capacity),
            ("size", toString s.size)] ++ f.counters.dict)
  | .proxy p =>
    .ok ([("probability", ratStr p.config.default_probability),
          ("storage", toString p.byte_size),
          ("capacity", toString p.capacity),
          ("size", toString p.size)] ++ p.counters.dict)

/-- `APIHandler.info` (lines 158-174): reads `MANAGER.filters` directly
(deliberately not through `__getitem__`, to avoid marking hot). -/
def apiInfo (st : SysState) (args : List String) :
    Except PyErr ApiResult × SysState :=
  match args with
  | [] => (.ok (.str "Client Error: Must provide filter name"), st)
  | name :: _ =>
    match assocFind? st.mgr.filters name with
    | none => (.ok (.str "Filter does not exist"), st)
    | some e =>
      match infoRows e with
      | .error err => (.error err, st)
      | .ok rows => (.ok (.dict rows), st)

/-- The flush-all loop of `APIHandler.flush`: flush each name, skipping
names that raise `KeyError`. -/
def flushLoop (st : SysState) : List String → Except PyErr SysState
  | [] => .ok st
  | n :: ns =>
    match flushFilter st n with
    | .error .keyError => flushLoop st ns
    | .error e => .error e
    | .ok st' => flushLoop st' ns

/-- `APIHandler.flush` (lines 176-193). -/
def apiFlush (st : SysState) (args : List String) :
    Except PyErr ApiResult × SysState :=
  match args with
  | name :: _ =>
    match flushFilter st name with
    | .error .keyError => (.ok (.str "Filter does not exist"), st)
    | .error e => (.error e, st)
    | .ok st' => (.ok (.str "Done"), st')
  | [] =>
    match flushLoop st (st.mgr.filters.map Prod.fst) with
    | .error e => (.error e, st)
    | .ok st' => (.ok (.str "Done"), st')

/-- The config dict rendered as string rows (for `conf` replies). -/
def configDict (c : BloomConfig) : List (String × String) :=
  [("data_dir", c.data_dir),
   ("initial_capacity", toString c.initial_capacity),
   ("default_probability", ratStr c.default_probability),
   ("scale_size", toString c.scale_size),
   ("probability_reduction", ratStr c.probability_reduction),
   ("flush_interval", toString c.flush_interval)]
  ++ (match c.size with | some v => [("size", toString v)] | none => [])
  ++ (match c.capacity with | some v => [("capacity", toString v)] | none => [])
  ++ (match c.byte_size with | some v => [("byte_size", toString v)] | none => [])

/-- The config dict of either kind of entry. -/
def Entry.config : Entry → BloomConfig
  | .active f => f.config
  | .proxy p => p.config

/-- `APIHandler.conf` (lines 195-207). -/
def apiConf (st : SysState) (args : List String) :
    Except PyErr ApiResult × SysState :=
  match args with
  | [] => (.ok (.dict (configDict st.mgr.config)), st)
  | name :: _ =>
    match assocFind? st.mgr.filters name with
    | none => (.ok (.str "Filter does not exist"), st)
    | some e => (.ok (.dict (("name", name) :: configDict e.config)), st)

/-! ### ConnHandler (`src/bloomd/conn_handler.py` lines 209-255) -/

/-- The command methods defined on `APIHandler`. -/
def apiCommandNames : List String :=
  ["create", "list", "drop", "close", "c", "check", "m", "multi",
   "s", "set", "b", "bulk", "info", "flush", "conf"]

/-- Non-command attributes for which `hasattr(APIHandler, cmd)` is still
true: the `MANAGER` class attribute and the attributes every CPython
2.6/2.7 new-style class carries (inherited from `object` and, through the
metaclass lookup, from `type` - including the 2.6 additions
`__instancecheck__` and `__subclasscheck__` and the `type` members
`__weakrefoffset__`, `__mro__`, `mro`, ...; `__abstractmethods__` is
deliberately absent, its getset raises `AttributeError` on a
non-abstract class).  Dispatching to one of these calls a non-command
object; the model records this branch as raising (`TypeError` on call),
which CPython turns into an `Internal Error` reply - exact for `MANAGER`
(a `FilterManager` instance has no `__call__`) and for the dunder
methods called with the dispatcher's string arguments; a few exotic
attribute calls can instead return a non-string object, for which
CPython sends no reply at all.  No theorem relies on those. -/
def apiOtherAttrs : List String :=
  ["MANAGER", "__base__", "__bases__", "__basicsize__", "__call__",
   "__class__", "__delattr__", "__dict__", "__dictoffset__", "__doc__",
   "__flags__", "__format__", "__getattribute__", "__hash__", "__init__",
   "__instancecheck__", "__itemsize__", "__module__", "__mro__",
   "__name__", "__new__", "__reduce__", "__reduce_ex__", "__repr__",
   "__setattr__", "__sizeof__", "__str__", "__subclasscheck__",
   "__subclasses__", "__subclasshook__", "__weakref__",
   "__weakrefoffset__", "mro"]

/-- Command-table dispatch (`getattr` on a command method). -/
def runApi (st : SysState) (cmd : String) (args : List String) :
    Except PyErr ApiResult × SysState :=
  if cmd = "create" then apiCreate st args
  else if cmd = "list" then apiList st args
  else if cmd = "drop" then apiDrop st args
  else if cmd = "close" then apiClose st args
  else if cmd = "c" then apiC st args
  else if cmd = "check" then apiCheck st args
  else if cmd = "m" then apiM st args
  else if cmd = "multi" then apiMulti st args
  else if cmd = "s" then apiS st args
  else if cmd = "set" then apiSet st args
  else if cmd = "b" then apiB st args
  else if cmd = "bulk" then apiBulk st args
  else if cmd = "info" then apiInfo st args
  else if cmd = "flush" then apiFlush st args
  else if cmd = "conf" then apiConf st args
  else (.error .otherError, st)

/-- Outcome of the `hasattr`/`getattr` dispatch in `lineReceived`. -/
inductive Outcome
  | noAttr
  | reply (p : Except PyErr ApiResult × SysState)

def dispatch (st : SysState) (cmd : String) (args : List String) : Outcome :=
  if apiCommandNames.contains cmd then .reply (runApi st cmd args)
  else if apiOtherAttrs.contains cmd then .reply (.error .otherError, st)
  else .noAttr

/-- `ConnHandler.lineReceived` (lines 221-255): strip the terminators,
split into at most three tokens, dispatch through `hasattr`/`getattr`;
string results are sent as one line, dicts as `START`/sorted rows/`END`;
an uncaught exception logs and replies `Internal Error`; a missing
attribute replies `Client Error: Command not supported`. -/
def lineReceived (st : SysState) (line : String) : List String × SysState :=
  let parts := pySplit2 (pyStrip line)
  let cmd := parts.headD ""
  let args := parts.tail
  match dispatch st cmd args with
  | .noAttr => (["Client Error: Command not supported"], st)
  | .reply (.error _, st') => (["Internal Error"], st')
  | .reply (.ok (.str s), st') => ([s], st')
  | .reply (.ok (.items l), st') => ("START" :: l ++ ["END"], st')
  | .reply (.ok (.dict l), st') =>
    ("START" :: (sortPairs l).map (fun kv => kv.1 ++ " " ++ kv.2) ++ ["END"], st')

/-- A TCP session: the reply lines of each request line, in order. -/
def runLines (st : SysState) : List String → List (List String) × SysState
  | [] => ([], st)
  | l :: ls =>
    let (r, st1) := lineReceived st l
    let (rs, st2) := runLines st1 ls
    (r :: rs, st2)

/-- A freshly started server over an empty data directory, with the
default configuration. -/
def initState : SysState :=
  { disk := [],
    mgr := { config := defaultConfig, filters := [], hot_filters := [] } }

/-- Is an entry's backing filter open (live filters always are: the
registry never retains a closed `Filter`, it swaps in a proxy or drops
the entry)? -/
def entryOpen : Entry → Bool
  | .active f => f.filt.isSome
  | .proxy _ => true

/-! ### Concrete states used by witnesses and counterexamples -/

/-- The filter `create_filter` builds for name `foobar` on a fresh
default-config server. -/
def demoFilter : Filter :=
  Filter.mk_discover defaultConfig "/tmp/bloomd/bloomd.foobar" none []

/-- A server with `foobar` registered, as after `create foobar`. -/
def demoState : SysState :=
  { disk := [("/tmp/bloomd/bloomd.foobar", ⟨[], none⟩)],
    mgr := { config := defaultConfig,
             filters := [("foobar", Entry.active demoFilter)],
             hot_filters := ["foobar"] } }

/-- A clean (not dirty) filter that already holds the key `"k"`. -/
def cleanKFilter : Filter :=
  { config := defaultConfig, path := "/tmp/bloomd/bloomd.x",
    filt := some ⟨[⟨["k"], 1000, 1000⟩], 4⟩, dirty := false, counters := {} }

/-- A dirty active filter holding `"a"`, about to be paged out. -/
def dirtyAFilter : Filter :=
  { config := defaultConfig, path := "/tmp/bloomd/bloomd.y",
    filt := some ⟨[⟨["a"], 1000, 1000⟩], 4⟩, dirty := true, counters := {} }

/-- A server whose single filter `y` is cold (hot set empty). -/
def coldState : SysState :=
  { disk := [("/tmp/bloomd/bloomd.y", ⟨[], none⟩)],
    mgr := { config := defaultConfig,
             filters := [("y", Entry.active dirtyAFilter)],
             hot_filters := [] } }

/-- `dirtyAFilter` after its flush: advisory keys refreshed, clean. -/
def flushedA : Filter :=
  { dirtyAFilter with
    config := { dirtyAFilter.config with
      size := some 1, capacity := some 1000, byte_size := some 1000 }
    dirty := false }

/-- The write trace of `dirtyAFilter.flush`. -/
def flushedAEvents : List WriteEvent :=
  [.configWrite dirtyAFilter.path (dumpConfig flushedA.config),
   .mmapFlush dirtyAFilter.path [⟨["a"], 1000, 1000⟩]]

/-- `demoState` after a cold sweep: `foobar` is hot, so only the hot set
is cleared. -/
def sweptDemo : SysState :=
  { disk := demoState.disk,
    mgr := { config := defaultConfig,
             filters := demoState.mgr.filters,
             hot_filters := [] } }

/-- A data-dir listing with two filter directories, the first of which
has a corrupt `config` file. -/
def corruptListing : List DirEntry :=
  [⟨"bloomd.alpha", true⟩, ⟨"bloomd.beta", true⟩]

/-- The matching filesystem: `alpha`'s `config` is corrupt, `beta` has
none. -/
def corruptDisk : Disk :=
  [("/tmp/bloomd/bloomd.alpha", ⟨[], some .corrupt⟩),
   ("/tmp/bloomd/bloomd.beta", ⟨[], none⟩)]

/-- Does this directory hold a corrupt `config` file (the one condition
that makes `load_custom_settings` raise)? -/
def corruptAt (disk : Disk) (p : String) : Bool :=
  match assocFind? disk p with
  | some dd =>
    match dd.configFile with
    | some .corrupt => true
    | _ => false
  | none => false

/-! ## Theorems -/

/-! ### Association-list lemmas -/

theorem assocFind?_assocSet_self {α : Type} (l : List (String × α)) (k : String) (v : α) :
    assocFind? (assocSet l k v) k = some v := by
  induction l with
  | nil => simp [assocSet, assocFind?]
  | cons p t ih =>
    by_cases h : p.1 = k
    · simp [assocSet, assocFind?, h]
    · simp [assocSet, assocFind?, h, ih]

theorem assocFind?_assocSet_ne {α : Type} (l : List (String × α)) (k k' : String) (v : α)
    (h : k' ≠ k) : assocFind? (assocSet l k v) k' = assocFind? l k' := by
  have hks : k ≠ k' := fun hh => h hh.symm
  induction l with
  | nil => simp [assocSet, assocFind?, hks]
  | cons p t ih =>
    by_cases hp : p.1 = k
    · subst hp
      have hpk : p.1 ≠ k' := hks
      simp [assocSet, assocFind?, hpk]
    · simp only [assocSet, if_neg hp]
      by_cases hp' : p.1 = k'
      · simp [assocFind?, hp']
      · simp [assocFind?, hp', ih]

theorem assocFind?_assocSet_isSome {α : Type} (l : List (String × α)) (k n : String) (v : α)
    (h : (assocFind? l n).isSome = true) :
    (assocFind? (assocSet l k v) n).isSome = true := by
  by_cases hk : n = k
  · subst hk
    simp [assocFind?_assocSet_self]
  · rw [assocFind?_assocSet_ne l k n v hk]
    exact h

/-! ### pyblooming lemmas -/

/-- Scaling appends only an empty sub-filter, so it never changes
membership. -/
theorem scaleStep_contains (s : ScalingBloomFilter) (k : String) :
    (s.scaleStep).contains k = s.contains k := by
  unfold ScalingBloomFilter.scaleStep
  simp only []
  split
  · simp [ScalingBloomFilter.contains, List.any_append]
  · rfl

/-- The novelty signal of `ScalingBloomFilter.add` is exactly
non-membership beforehand. -/
theorem scaling_add_novelty (s : ScalingBloomFilter) (k : String) :
    (s.add k).1 = !(s.contains k) := by
  unfold ScalingBloomFilter.add
  simp only [apply_ite (f := Prod.fst), scaleStep_contains]
  by_cases h : s.contains k
  · simp [h]
  · simp [h]

/-! ### Claim C1 -/

/-- C1.  For every registered filter, `set` replies `Yes` exactly when the
key was not previously present (the novelty signal) and `No` otherwise,
and `check` replies `Yes` exactly when the filter reports membership and
`No` otherwise; moreover the seed session `create foobar` / `set foobar
test` / `set foobar test` / `check foobar test` / `check foobar absent`
yields `Done`, `Yes`, `No`, `Yes`, `No`. -/
theorem claim_c1_set_check_replies :
    (∀ (st : SysState) (name key : String) (f : Filter) (s : ScalingBloomFilter),
      assocFind? st.mgr.filters name = some (.active f) →
      f.filt = some s →
      (apiSet st [name, key]).1 =
        .ok (.str (if s.contains key then "No" else "Yes")) ∧
      (apiCheck st [name, key]).1 =
        .ok (.str (if s.contains key then "Yes" else "No"))) ∧
    (runLines initState ["create foobar", "set foobar test", "set foobar test",
      "check foobar test", "check foobar absent"]).1 =
      [["Done"], ["Yes"], ["No"], ["Yes"], ["No"]] := by
  constructor
  · intro st name key f s h hf
    constructor
    · simp only [apiSet, setKeys, keyedOp, FilterManager.getitem]
      rw [show assocFind? ({ st.mgr with
            hot_filters := insertName st.mgr.hot_filters name } : FilterManager).filters name
          = some (.active f) from h]
      simp only [runKeys, Filter.add, hf]
      rcases hadd : s.add key with ⟨res, s'⟩
      have hres : res = !(s.contains key) := by
        have := scaling_add_novelty s key
        rw [hadd] at this
        exact this
      subst hres
      by_cases hc : s.contains key <;> simp [hc, yesNo]
    · simp only [apiCheck, checkKeys, keyedOp, FilterManager.getitem]
      rw [show assocFind? ({ st.mgr with
            hot_filters := insertName st.mgr.hot_filters name } : FilterManager).filters name
          = some (.active f) from h]
      simp only [runKeys, Filter.contains, hf]
      by_cases hc : s.contains key <;> simp [hc, yesNo]
  · decide

/-- Witness for C1 at a concrete input: on the server state right after
`create foobar`, `set foobar test` replies by the novelty of `test` and
`check foobar test` by its membership. -/
theorem claim_c1_witness :
    (apiSet demoState ["foobar", "test"]).1 =
      .ok (.str (if (mkScaling defaultConfig []).contains "test" then "No" else "Yes")) ∧
    (apiCheck demoState ["foobar", "test"]).1 =
      .ok (.str (if (mkScaling defaultConfig []).contains "test" then "Yes" else "No")) :=
  claim_c1_set_check_replies.1 demoState "foobar" "test" demoFilter
    (mkScaling defaultConfig []) (by decide) (by decide)

/-! ### Claim C2 -/

/-- C2 (refuting evidence).  `m` is not equivalent to `multi`: its body
delegates to `bulk`, so it inserts.  Replaying the repository's own
`test_aliases` integration test, after `create foobar` and
`b foobar test test1 test2`, the line `m foobar test1 test2` replies
`No No` (the novelty answer of a second insertion) where the test asserts
`Yes Yes` and `multi foobar test1 test2` replies `Yes Yes`; and on a fresh
key, `m` inserts it (a later `check` sees it) while `multi` does not. -/
theorem claim_c2_m_delegates_to_bulk :
    (runLines initState ["create foobar", "b foobar test test1 test2",
      "m foobar test1 test2"]).1 = [["Done"], ["Yes Yes Yes"], ["No No"]] ∧
    (runLines initState ["create foobar", "b foobar test test1 test2",
      "multi foobar test1 test2"]).1 = [["Done"], ["Yes Yes Yes"], ["Yes Yes"]] ∧
    (runLines initState ["create foobar", "m foobar newkey",
      "check foobar newkey"]).1 = [["Done"], ["Yes"], ["Yes"]] ∧
    (runLines initState ["create foobar", "multi foobar newkey",
      "check foobar newkey"]).1 = [["Done"], ["No"], ["No"]] := by
  decide

/-! ### Claim C3 -/

/-- `load_custom_settings` raises exactly on a corrupt config file, and
only with that one exception. -/
theorem load_custom_settings_error_iff (d : Disk) (p : String) (e : PyErr) :
    load_custom_settings d p = .error e ↔
      (e = .otherError ∧ corruptAt d p = true) := by
  unfold load_custom_settings corruptAt
  rcases hfind : assocFind? d p with _ | dd
  · simp
  · rcases hdd : dd.configFile with _ | cf
    · simp [hdd]
    · cases cf
      · simp [hdd]
      · cases e <;> simp [hdd]

/-- A corrupt config anywhere in the listing aborts the discovery fold
with the exception, whatever has been accumulated so far. -/
theorem discoverGo_corrupt_error (conf : BloomConfig) (disk : Disk) :
    ∀ (listing : List DirEntry) (fs : List (String × Entry)),
      (∃ e ∈ listing, eligibleEntry e = true ∧
        corruptAt disk (joinPath conf.data_dir e.name) = true) →
      discoverGo conf disk fs listing = .error .otherError := by
  intro listing
  induction listing with
  | nil =>
    intro fs h
    simp at h
  | cons e rest ih =>
    intro fs h
    rcases h with ⟨w, hw, hel, hcor⟩
    by_cases hc : containsSub e.name filtPfx
    · by_cases hd : e.isDir
      · rcases hload : load_custom_settings disk (joinPath conf.data_dir e.name)
            with err | custom
        · have hsh := (load_custom_settings_error_iff disk
            (joinPath conf.data_dir e.name) err).mp hload
          simp [discoverGo, hc, hd, hload, hsh.1]
        · have hnotcorr : corruptAt disk (joinPath conf.data_dir e.name) ≠ true := by
            intro hcc
            have : load_custom_settings disk (joinPath conf.data_dir e.name)
                = .error .otherError :=
              (load_custom_settings_error_iff disk _ _).mpr ⟨rfl, hcc⟩
            rw [hload] at this
            exact Except.noConfusion this
          rcases List.mem_cons.mp hw with hweq | hwmem
          · subst hweq
            exact absurd hcor hnotcorr
          · have hstep : discoverGo conf disk fs (e :: rest)
                = discoverGo conf disk
                  (assocSet fs (removeAll e.name filtPfx)
                    (.proxy (mkProxyFilter conf (joinPath conf.data_dir e.name) custom)))
                  rest := by
              simp [discoverGo, hc, hd, hload]
            rw [hstep]
            exact ih _ ⟨w, hwmem, hel, hcor⟩
      · rcases List.mem_cons.mp hw with hweq | hwmem
        · subst hweq
          simp [eligibleEntry, hc, hd] at hel
        · have hstep : discoverGo conf disk fs (e :: rest)
              = discoverGo conf disk fs rest := by
            simp [discoverGo, hc, hd]
          rw [hstep]
          exact ih _ ⟨w, hwmem, hel, hcor⟩
    · rcases List.mem_cons.mp hw with hweq | hwmem
      · subst hweq
        simp [eligibleEntry, hc] at hel
      · have hstep : discoverGo conf disk fs (e :: rest)
            = discoverGo conf disk fs rest := by
          simp [discoverGo, hc]
        rw [hstep]
        exact ih _ ⟨w, hwmem, hel, hcor⟩

/-- When no eligible directory has a corrupt config, discovery succeeds
and registers every eligible directory's stripped name (accumulated
bindings survive). -/
theorem discoverGo_clean_ok (conf : BloomConfig) (disk : Disk) :
    ∀ (listing : List DirEntry) (fs : List (String × Entry)),
      (∀ e ∈ listing, eligibleEntry e = true →
        corruptAt disk (joinPath conf.data_dir e.name) = false) →
      ∃ fs', discoverGo conf disk fs listing = .ok fs' ∧
        (∀ n, (assocFind? fs n).isSome = true → (assocFind? fs' n).isSome = true) ∧
        (∀ e ∈ listing, eligibleEntry e = true →
          (assocFind? fs' (removeAll e.name filtPfx)).isSome = true) := by
  intro listing
  induction listing with
  | nil =>
    intro fs _
    exact ⟨fs, rfl, fun n h => h, by simp⟩
  | cons e rest ih =>
    intro fs hclean
    by_cases hc : containsSub e.name filtPfx
    · by_cases hd : e.isDir
      · have hel : eligibleEntry e = true := by simp [eligibleEntry, hc, hd]
        have hnc : corruptAt disk (joinPath conf.data_dir e.name) = false :=
          hclean e (List.mem_cons_self e rest) hel
        rcases hload : load_custom_settings disk (joinPath conf.data_dir e.name)
            with err | custom
        · have hsh := (load_custom_settings_error_iff disk
            (joinPath conf.data_dir e.name) err).mp hload
          rw [hsh.2] at hnc
          exact Bool.noConfusion hnc
        · rcases ih (assocSet fs (removeAll e.name filtPfx)
              (.proxy (mkProxyFilter conf (joinPath conf.data_dir e.name) custom)))
              (fun x hx hex => hclean x (List.mem_cons_of_mem e hx) hex)
            with ⟨fs', hgo, hkeep, hreg⟩
          refine ⟨fs', ?_, ?_, ?_⟩
          · have hstep : discoverGo conf disk fs (e :: rest)
                = discoverGo conf disk
                  (assocSet fs (removeAll e.name filtPfx)
                    (.proxy (mkProxyFilter conf (joinPath conf.data_dir e.name) custom)))
                  rest := by
              simp [discoverGo, hc, hd, hload]
            rw [hstep]
            exact hgo
          · intro n hn
            exact hkeep n (assocFind?_assocSet_isSome _ _ _ _ hn)
          · intro x hx hex
            rcases List.mem_cons.mp hx with hxeq | hxmem
            · subst hxeq
              apply hkeep
              simp [assocFind?_assocSet_self]
            · exact hreg x hxmem hex
      · have hskip : ∀ x ∈ rest, eligibleEntry x = true →
            corruptAt disk (joinPath conf.data_dir x.name) = false :=
          fun x hx hex => hclean x (List.mem_cons_of_mem e hx) hex
        rcases ih fs hskip with ⟨fs', hgo, hkeep, hreg⟩
        refine ⟨fs', ?_, hkeep, ?_⟩
        · have hstep : discoverGo conf disk fs (e :: rest)
              = discoverGo conf disk fs rest := by
            simp [discoverGo, hc, hd]
          rw [hstep]
          exact hgo
        · intro x hx hex
          rcases List.mem_cons.mp hx with hxeq | hxmem
          · subst hxeq
            simp [eligibleEntry, hc, hd] at hex
          · exact hreg x hxmem hex
    · have hskip : ∀ x ∈ rest, eligibleEntry x = true →
          corruptAt disk (joinPath conf.data_dir x.name) = false :=
        fun x hx hex => hclean x (List.mem_cons_of_mem e hx) hex
      rcases ih fs hskip with ⟨fs', hgo, hkeep, hreg⟩
      refine ⟨fs', ?_, hkeep, ?_⟩
      · have hstep : discoverGo conf disk fs (e :: rest)
            = discoverGo conf disk fs rest := by
          simp [discoverGo, hc]
        rw [hstep]
        exact hgo
      · intro x hx hex
        rcases List.mem_cons.mp hx with hxeq | hxmem
        · subst hxeq
          simp [eligibleEntry, hc] at hex
        · exact hreg x hxmem hex

/-- C3 counterexample.  With directory `bloomd.alpha` carrying a corrupt
`config` and `bloomd.beta` discoverable next to it, startup discovery
raises instead of skipping `alpha`: no filter map is produced, so `beta`
is not registered either and the manager constructor fails. -/
theorem claim_c3_counterexample :
    discoverFilters defaultConfig corruptListing corruptDisk
      = .error .otherError ∧
    mkFilterManager defaultConfig corruptListing corruptDisk
      = .error .otherError := by
  decide

/-- C3 as amended: a corrupt (unreadable) `config` of any discoverable
directory aborts startup discovery with the raised exception - nothing is
skipped, no filter map is built; only an absent `config` file is
tolerated (the directory loads with runtime defaults), and when no
discoverable directory is corrupt every one of them is registered. -/
theorem claim_c3_amended :
    (∀ (conf : BloomConfig) (disk : Disk) (listing : List DirEntry),
      (∃ e ∈ listing, eligibleEntry e = true ∧
        corruptAt disk (joinPath conf.data_dir e.name) = true) →
      discoverFilters conf listing disk = .error .otherError) ∧
    (∀ (conf : BloomConfig) (disk : Disk) (listing : List DirEntry),
      (∀ e ∈ listing, eligibleEntry e = true →
        corruptAt disk (joinPath conf.data_dir e.name) = false) →
      ∃ fs, discoverFilters conf listing disk = .ok fs ∧
        ∀ e ∈ listing, eligibleEntry e = true →
          (assocFind? fs (removeAll e.name filtPfx)).isSome = true) := by
  constructor
  · intro conf disk listing h
    exact discoverGo_corrupt_error conf disk listing [] h
  · intro conf disk listing h
    rcases discoverGo_clean_ok conf disk listing [] h with ⟨fs, hgo, _, hreg⟩
    exact ⟨fs, hgo, hreg⟩

/-- Witness for C3 as amended, at concrete inputs: the corrupt listing
aborts discovery, and the same listing with a readable `config` registers
both `alpha` and `beta`. -/
theorem claim_c3_witness :
    discoverFilters defaultConfig corruptListing corruptDisk
      = .error .otherError ∧
    (∃ fs, discoverFilters defaultConfig corruptListing
        [("/tmp/bloomd/bloomd.alpha", ⟨[], none⟩),
         ("/tmp/bloomd/bloomd.beta", ⟨[], none⟩)] = .ok fs ∧
      ∀ e ∈ corruptListing, eligibleEntry e = true →
        (assocFind? fs (removeAll e.name filtPfx)).isSome = true) :=
  ⟨claim_c3_amended.1 defaultConfig corruptDisk corruptListing
    ⟨⟨"bloomd.alpha", true⟩, by decide, by decide, by decide⟩,
   claim_c3_amended.2 defaultConfig
    [("/tmp/bloomd/bloomd.alpha", ⟨[], none⟩),
     ("/tmp/bloomd/bloomd.beta", ⟨[], none⟩)] corruptListing (by decide)⟩

/-! ### Claim C4 -/

/-- C4 counterexample.  `Filter.add` sets `dirty = True` before
delegating (line 108 of `filters.py`), unconditionally: on a clean filter
that already holds `"k"`, adding `"k"` returns `false` yet flips the
dirty flag to true, contradicting "an `add` that returns false leaves the
`dirty` flag unchanged". -/
theorem claim_c4_counterexample :
    cleanKFilter.dirty = false ∧
    (cleanKFilter.add "k").toOption.map Prod.fst = some false ∧
    (cleanKFilter.add "k").toOption.map (fun r => r.2.dirty) = some true := by
  decide

/-- C4 as amended: on an open filter, `add(k)` increments exactly one of
`set_hits`/`set_misses` according to the returned novelty, and sets the
`dirty` flag to true unconditionally - on a hit and on a miss alike. -/
theorem claim_c4_add_effects :
    ∀ (f : Filter) (k : String) (s : ScalingBloomFilter), f.filt = some s →
      ∃ res f', f.add k = .ok (res, f') ∧
        res = !(s.contains k) ∧
        f'.dirty = true ∧
        (res = true → f'.counters.set_hits = f.counters.set_hits + 1 ∧
          f'.counters.set_misses = f.counters.set_misses) ∧
        (res = false → f'.counters.set_misses = f.counters.set_misses + 1 ∧
          f'.counters.set_hits = f.counters.set_hits) := by
  intro f k s hf
  have hnov := scaling_add_novelty s k
  simp only [Filter.add, hf]
  rcases hadd : s.add k with ⟨res, s'⟩
  rw [hadd] at hnov
  simp only at hnov
  refine ⟨res, _, rfl, hnov, rfl, ?_, ?_⟩
  · intro hres
    subst hres
    simp
  · intro hres
    subst hres
    simp

/-- Witness for C4 as amended at a concrete input: adding a fresh key to
`cleanKFilter`. -/
theorem claim_c4_witness :
    ∃ res f', cleanKFilter.add "fresh" = .ok (res, f') ∧
      res = !(ScalingBloomFilter.contains ⟨[⟨["k"], 1000, 1000⟩], 4⟩ "fresh") ∧
      f'.dirty = true ∧
      (res = true → f'.counters.set_hits = cleanKFilter.counters.set_hits + 1 ∧
        f'.counters.set_misses = cleanKFilter.counters.set_misses) ∧
      (res = false → f'.counters.set_misses = cleanKFilter.counters.set_misses + 1 ∧
        f'.counters.set_hits = cleanKFilter.counters.set_hits) :=
  claim_c4_add_effects cleanKFilter "fresh" ⟨[⟨["k"], 1000, 1000⟩], 4⟩ rfl

/-! ### Claim C5 -/

/-- C5 counterexample.  The name `a!` contains `!`, a character outside
`[A-Za-z0-9._]`, yet `create a!` replies `Done` and registers the filter:
`re.match` only requires a matching nonempty prefix, so names with a
valid first character slip through. -/
theorem claim_c5_counterexample :
    ("a!".data.all validChar) = false ∧
    (lineReceived initState "create a!").1 = ["Done"] ∧
    (lineReceived initState "create a!").2.mgr.hasName "a!" = true := by
  decide

/-- The override-parsing block can only produce its two capacity- and
probability-related error strings, never the bad-name error. -/
theorem parseCreateArgs_error_shape (rest : List String) (msg : String)
    (h : parseCreateArgs rest = .error msg) :
    msg = "Client Error: Bad initial capacity!" ∨
    msg = "Client Error: Bad false positive probability!" := by
  unfold parseCreateArgs at h
  rcases rest with _ | ⟨a, t⟩
  · exact absurd h (by simp)
  · simp only at h
    rcases hpi : pyInt ((pySplitSp a).headD "") with _ | cap
    · rw [hpi] at h
      simp at h
      exact Or.inl h.symm
    · rw [hpi] at h
      simp only at h
      by_cases hlt : cap < 1000
      · rw [if_pos hlt] at h
        simp at h
        exact Or.inl h.symm
      · rw [if_neg hlt] at h
        rcases hg : (pySplitSp a).get? 1 with _ | a1
        · rw [hg] at h
          simp at h
        · rw [hg] at h
          simp only at h
          rcases hr : pyRat a1 with _ | p
          · rw [hr] at h
            simp at h
            exact Or.inr h.symm
          · rw [hr] at h
            simp only at h
            by_cases hb : (1 ≤ p || p ≤ 0) = true
            · rw [if_pos hb] at h
              simp at h
              exact Or.inr h.symm
            · rw [if_neg hb] at h
              simp at h

/-- C5 as amended: `create` replies `Client Error: Bad filter name` (and
leaves the state untouched) exactly when the submitted name is empty or
its first character is outside `[A-Za-z0-9._]`; a name whose first
character is in the class is never rejected for its name, even when later
characters fall outside the class (Python `re.match` accepts on a
matching prefix). -/
theorem claim_c5_name_validation :
    ∀ (st : SysState) (name : String) (rest : List String),
      (validNameMatch name = false →
        apiCreate st (name :: rest) = (.ok (.str "Client Error: Bad filter name"), st)) ∧
      (validNameMatch name = true →
        (apiCreate st (name :: rest)).1 ≠ .ok (.str "Client Error: Bad filter name")) := by
  intro st name rest
  constructor
  · intro h
    simp [apiCreate, h]
  · intro h
    simp only [apiCreate, h]
    simp only [Bool.true_eq_false, if_false]
    by_cases hn : st.mgr.hasName name
    · simp [hn]
    · simp only [hn, Bool.false_eq_true, if_false]
      rcases hp : parseCreateArgs rest with msg | custom
      · rcases parseCreateArgs_error_shape rest msg hp with hm | hm <;>
          (subst hm; simp)
      · simp

/-- Witness for C5 as amended at concrete inputs: `!bad` (invalid first
character) is rejected with no state change, `good` is not name-rejected. -/
theorem claim_c5_witness :
    apiCreate initState ["!bad"]
      = (.ok (.str "Client Error: Bad filter name"), initState) ∧
    (apiCreate initState ["good"]).1 ≠ .ok (.str "Client Error: Bad filter name") :=
  ⟨(claim_c5_name_validation initState "!bad" []).1 (by decide),
   (claim_c5_name_validation initState "good" []).2 (by decide)⟩

/-! ### Claim C6 -/

/-- C6 counterexample.  The request line `MANAGER` carries a first token
that is none of the protocol-table commands, yet the reply is
`Internal Error`, not `Client Error: Command not supported`:
`hasattr(APIHandler, "MANAGER")` holds (it is the manager class
attribute), so the dispatcher calls it and the call raises `TypeError`. -/
theorem claim_c6_counterexample :
    apiCommandNames.contains "MANAGER" = false ∧
    (lineReceived initState "MANAGER").1 = ["Internal Error"] ∧
    (lineReceived initState "MANAGER").1 ≠ ["Client Error: Command not supported"] := by
  decide

/-- C6 as amended: the server replies `Client Error: Command not
supported` (with no state change) exactly for first tokens that are not
attributes of the `APIHandler` class - its command methods, its `MANAGER`
class attribute and the attributes every Python class inherits; a
non-command attribute token such as `MANAGER` instead raises on call and
replies `Internal Error`. -/
theorem claim_c6_unknown_command (st : SysState) (line : String)
    (h1 : apiCommandNames.contains ((pySplit2 (pyStrip line)).headD "") = false)
    (h2 : apiOtherAttrs.contains ((pySplit2 (pyStrip line)).headD "") = false) :
    lineReceived st line = (["Client Error: Command not supported"], st) := by
  unfold lineReceived dispatch
  simp only []
  rw [h1, h2]
  simp

/-- Witness for C6 as amended at a concrete input: the token
`frobnicate` is no attribute at all, and the reply is the client error. -/
theorem claim_c6_witness :
    lineReceived initState "frobnicate"
      = (["Client Error: Command not supported"], initState) :=
  claim_c6_unknown_command initState "frobnicate" (by decide) (by decide)

/-! ### Claim C7 -/

/-- `Filter.close` on an open filter succeeds and leaves the advisory
config keys equal to the filter's final live values: the flush inside the
close refreshes them when the filter is dirty, and a clean filter's
config already holds them (they can only have been written by the flush
that cleared `dirty`, and nothing changed since). -/
theorem close_refreshes_config (f : Filter) (s : ScalingBloomFilter)
    (hf : f.filt = some s)
    (hinv : f.dirty = false →
      f.config.size = some s.size ∧
      f.config.capacity = some s.total_capacity ∧
      f.config.byte_size = some s.total_bitmap_size) :
    ∃ f2 evs, f.close = .ok (f2, evs) ∧
      f2.config.size = some s.size ∧
      f2.config.capacity = some s.total_capacity ∧
      f2.config.byte_size = some s.total_bitmap_size ∧
      f2.path = f.path ∧ f2.counters = f.counters := by
  unfold Filter.close Filter.flush
  by_cases hd : f.dirty = false
  · rw [if_pos hd]
    simp only [hf]
    rcases hinv hd with ⟨h1, h2, h3⟩
    exact ⟨_, _, rfl, h1, h2, h3, rfl, rfl⟩
  · rw [if_neg hd]
    simp only [hf]
    exact ⟨_, _, rfl, rfl, rfl, rfl, rfl, rfl⟩

/-- The advisory values a `mkProxyFilter` reports are the config's, with
the `setdefault` fallbacks. -/
theorem mkProxyFilter_values (c : BloomConfig) (p : String) :
    (mkProxyFilter c p none).size = c.size.getD 0 ∧
    (mkProxyFilter c p none).capacity = c.capacity.getD c.initial_capacity ∧
    (mkProxyFilter c p none).byte_size = c.byte_size.getD 0 := by
  unfold mkProxyFilter ProxyFilter.size ProxyFilter.capacity ProxyFilter.byte_size
  rcases c.size with _ | v <;> rcases c.capacity with _ | w <;>
    rcases c.byte_size with _ | u <;> simp

/-- What the cold sweep's per-entry loop does to every cold open active
entry: it turns up in the result as a proxy whose advisory values are the
paged-out filter's live values. -/
theorem unmapEntries_spec (hot : List String) :
    ∀ (l : List (String × Entry)),
      (∀ p ∈ l, entryOpen p.2 = true) →
      ∃ l' evs, unmapEntries hot l = .ok (l', evs) ∧
        ∀ (name : String) (f : Filter) (s : ScalingBloomFilter),
          assocFind? l name = some (.active f) →
          f.filt = some s →
          hot.contains name = false →
          (f.dirty = false →
            f.config.size = some s.size ∧
            f.config.capacity = some s.total_capacity ∧
            f.config.byte_size = some s.total_bitmap_size) →
          ∃ pf, assocFind? l' name = some (.proxy pf) ∧
            pf.size = s.size ∧ pf.capacity = s.total_capacity ∧
            pf.byte_size = s.total_bitmap_size := by
  intro l
  induction l with
  | nil =>
    intro _
    refine ⟨[], [], rfl, ?_⟩
    intro name f s hfind
    simp [assocFind?] at hfind
  | cons p rest ih =>
    intro hopen
    obtain ⟨n, e⟩ := p
    have hopenRest : ∀ q ∈ rest, entryOpen q.2 = true :=
      fun q hq => hopen q (List.mem_cons_of_mem _ hq)
    rcases ih hopenRest with ⟨rest', evs', hgo, hprop⟩
    have hskip : ∀ (ee : Entry),
        (∀ (name : String) (f : Filter) (s : ScalingBloomFilter),
          n ≠ name →
          assocFind? ((n, ee) :: rest) name = some (.active f) →
          f.filt = some s →
          hot.contains name = false →
          (f.dirty = false →
            f.config.size = some s.size ∧
            f.config.capacity = some s.total_capacity ∧
            f.config.byte_size = some s.total_bitmap_size) →
          ∀ (e2 : Entry),
          ∃ pf, assocFind? ((n, e2) :: rest') name = some (.proxy pf) ∧
            pf.size = s.size ∧ pf.capacity = s.total_capacity ∧
            pf.byte_size = s.total_bitmap_size) := by
      intro ee name f s hn hfind hf hcold hinv e2
      rw [show assocFind? ((n, ee) :: rest) name = assocFind? rest name by
        simp [assocFind?, hn]] at hfind
      rcases hprop name f s hfind hf hcold hinv with ⟨pf, hpf, h1, h2, h3⟩
      exact ⟨pf, by simp [assocFind?, hn, hpf], h1, h2, h3⟩
    by_cases hhot : hot.contains n = true
    · have hstep : unmapEntries hot ((n, e) :: rest)
          = .ok ((n, e) :: rest', evs') := by
        simp only [unmapEntries]
        rw [hgo, hhot]
        rfl
      refine ⟨(n, e) :: rest', evs', hstep, ?_⟩
      intro name f s hfind hf hcold hinv
      by_cases hn : n = name
      · subst hn
        rw [hhot] at hcold
        exact Bool.noConfusion hcold
      · exact hskip e name f s hn hfind hf hcold hinv e
    · have hhot' : hot.contains n = false := by
        simp only [Bool.not_eq_true] at hhot
        exact hhot
      match e with
      | .proxy q =>
        have hstep : unmapEntries hot ((n, .proxy q) :: rest)
            = .ok ((n, .proxy q) :: rest', evs') := by
          simp only [unmapEntries]
          rw [hgo, hhot']
          rfl
        refine ⟨(n, .proxy q) :: rest', evs', hstep, ?_⟩
        intro name f s hfind hf hcold hinv
        by_cases hn : n = name
        · subst hn
          simp [assocFind?] at hfind
        · exact hskip (.proxy q) name f s hn hfind hf hcold hinv (.proxy q)
      | .active f0 =>
        have hopen0 : f0.filt.isSome = true :=
          hopen (n, .active f0) (List.mem_cons_self _ _)
        rcases hs0 : f0.filt with _ | s0
        · rw [hs0] at hopen0
          exact Bool.noConfusion hopen0
        · have hinv0 : f0.dirty = false →
              f0.config.size = some s0.size ∧
              f0.config.capacity = some s0.total_capacity ∧
              f0.config.byte_size = some s0.total_bitmap_size → True := fun _ _ => trivial
          -- close the head filter; it is open, so this cannot raise
          have hcl : ∃ f2 ev2, f0.close = .ok (f2, ev2) := by
            unfold Filter.close Filter.flush
            by_cases hd : f0.dirty = false
            · rw [if_pos hd]
              simp only [hs0]
              exact ⟨_, _, rfl⟩
            · rw [if_neg hd]
              simp only [hs0]
              exact ⟨_, _, rfl⟩
          rcases hcl with ⟨f2, ev2, hclose⟩
          have hstep : unmapEntries hot ((n, .active f0) :: rest)
              = .ok ((n, .proxy { mkProxyFilter f2.config f2.path none with
                  counters := { f2.counters with
                    page_outs := f2.counters.page_outs + 1 } }) :: rest',
                ev2 ++ evs') := by
            simp only [unmapEntries]
            rw [hgo, hhot', hclose]
            rfl
          refine ⟨_, _, hstep, ?_⟩
          intro name f s hfind hf hcold hinv
          by_cases hn : n = name
          · subst hn
            have hef : f0 = f := by
              have : some (Entry.active f0) = some (Entry.active f) := by
                rw [← hfind]
                simp [assocFind?]
              injection this with hthis
              injection hthis
            subst hef
            have hss : s0 = s := by
              rw [hf] at hs0
              injection hs0 with hv
              exact hv.symm
            subst hss
            rcases close_refreshes_config f0 s0 hs0 hinv with
              ⟨f2', ev2', hclose', hc1, hc2, hc3, _, _⟩
            have hf2 : f2' = f2 ∧ ev2' = ev2 := by
              rw [hclose] at hclose'
              injection hclose' with hp
              injection hp with ha hb
              exact ⟨ha.symm, hb.symm⟩
            rw [hf2.1] at hc1 hc2 hc3
            refine ⟨{ mkProxyFilter f2.config f2.path none with
                counters := { f2.counters with
                  page_outs := f2.counters.page_outs + 1 } },
              by simp [assocFind?], ?_, ?_, ?_⟩
            · show ProxyFilter.size _ = s0.size
              have hv := (mkProxyFilter_values f2.config f2.path).1
              simp only [ProxyFilter.size] at hv ⊢
              rw [hv, hc1]
              rfl
            · show ProxyFilter.capacity _ = s0.total_capacity
              have hv := (mkProxyFilter_values f2.config f2.path).2.1
              simp only [ProxyFilter.capacity] at hv ⊢
              rw [hv, hc2]
              rfl
            · show ProxyFilter.byte_size _ = s0.total_bitmap_size
              have hv := (mkProxyFilter_values f2.config f2.path).2.2
              simp only [ProxyFilter.byte_size] at hv ⊢
              rw [hv, hc3]
              rfl
          · exact hskip (.active f0) name f s hn hfind hf hcold hinv
              (.proxy { mkProxyFilter f2.config f2.path none with
                counters := { f2.counters with
                  page_outs := f2.counters.page_outs + 1 } })

/-- C7.  When the cold sweep pages an open Active filter out, the
replacing Proxy's `len()`, `capacity()` and `byte_size()` are exactly the
Active filter's values at page-out (refreshed into the config by the
flush inside the close when the filter is dirty; a clean filter's config
already holds them, the stated invariant hypothesis), and the Proxy's
`flush()`/`close()` are no-ops producing no state change and no writes. -/
theorem claim_c7_paging_transparency :
    ∀ (st : SysState) (name : String) (f : Filter) (s : ScalingBloomFilter),
      (∀ p ∈ st.mgr.filters, entryOpen p.2 = true) →
      assocFind? st.mgr.filters name = some (.active f) →
      f.filt = some s →
      st.mgr.hot_filters.contains name = false →
      (f.dirty = false →
        f.config.size = some s.size ∧
        f.config.capacity = some s.total_capacity ∧
        f.config.byte_size = some s.total_bitmap_size) →
      ∃ st' pf, unmapCold st = .ok st' ∧
        assocFind? st'.mgr.filters name = some (.proxy pf) ∧
        pf.size = s.size ∧
        pf.capacity = s.total_capacity ∧
        pf.byte_size = s.total_bitmap_size ∧
        pf.flush = (pf, []) ∧
        pf.close = (pf, []) := by
  intro st name f s hopen hfind hf hcold hinv
  rcases unmapEntries_spec st.mgr.hot_filters st.mgr.filters hopen
    with ⟨l', evs, hgo, hprop⟩
  rcases hprop name f s hfind hf hcold hinv with ⟨pf, hpf, h1, h2, h3⟩
  refine ⟨{ disk := applyEvents st.disk evs,
            mgr := { st.mgr with filters := l', hot_filters := [] } },
    pf, ?_, hpf, h1, h2, h3, rfl, rfl⟩
  unfold unmapCold
  rw [hgo]

/-- Witness for C7 at a concrete input: the cold server `coldState` pages
its dirty filter `y` (holding one key, capacity 1000) out into a proxy
reporting exactly those values. -/
theorem claim_c7_witness :
    ∃ st' pf, unmapCold coldState = .ok st' ∧
      assocFind? st'.mgr.filters "y" = some (.proxy pf) ∧
      pf.size = (⟨[⟨["a"], 1000, 1000⟩], 4⟩ : ScalingBloomFilter).size ∧
      pf.capacity = (⟨[⟨["a"], 1000, 1000⟩], 4⟩ : ScalingBloomFilter).total_capacity ∧
      pf.byte_size = (⟨[⟨["a"], 1000, 1000⟩], 4⟩ : ScalingBloomFilter).total_bitmap_size ∧
      pf.flush = (pf, []) ∧
      pf.close = (pf, []) :=
  claim_c7_paging_transparency coldState "y" dirtyAFilter
    ⟨[⟨["a"], 1000, 1000⟩], 4⟩
    (by decide) (by decide) (by decide) (by decide) (by decide)

/-! ### Claim C8 -/

/-- C8.  `Filter.flush` is idempotent: a second flush right after a flush
changes nothing and writes nothing (hence the on-disk config is that of
the single flush); after any flush the `dirty` flag is false; and a flush
of a clean filter is a complete no-op, performing no writes at all. -/
theorem claim_c8_flush_idempotent :
    ∀ (f f1 : Filter) (ev1 : List WriteEvent),
      f.flush = .ok (f1, ev1) →
      f1.flush = .ok (f1, []) ∧
      f1.dirty = false ∧
      (f.dirty = false → f1 = f ∧ ev1 = []) := by
  intro f f1 ev1 h
  unfold Filter.flush at h
  by_cases hd : f.dirty = false
  · rw [if_pos hd] at h
    injection h with hp
    injection hp with ha hb
    subst ha
    refine ⟨?_, hd, fun _ => ⟨rfl, hb.symm⟩⟩
    unfold Filter.flush
    rw [if_pos hd]
  · rw [if_neg hd] at h
    rcases hs : f.filt with _ | s
    · rw [hs] at h
      exact absurd h (by simp)
    · rw [hs] at h
      simp only [Except.ok.injEq, Prod.mk.injEq] at h
      rcases h with ⟨ha, _⟩
      refine ⟨?_, ?_, fun hc => absurd hc hd⟩
      · rw [← ha]
        unfold Filter.flush
        rfl
      · rw [← ha]

/-- Witness for C8 at a concrete input: flushing the dirty `dirtyAFilter`
once, then again. -/
theorem claim_c8_witness :
    flushedA.flush = .ok (flushedA, []) ∧
    flushedA.dirty = false ∧
    (dirtyAFilter.dirty = false → flushedA = dirtyAFilter ∧ flushedAEvents = []) :=
  claim_c8_flush_idempotent dirtyAFilter flushedA flushedAEvents (by decide)

/-! ### Claim C9 -/

/-- C9.  `FilterManager.__getitem__` adds the queried name to the hot set
before the existence check: the name is hot afterwards whether or not it
is registered, a lookup of an unregistered name still raises `KeyError`
with the name left hot (so the hot set is not a subset of the registered
names), and only the cold sweep clears the hot set. -/
theorem claim_c9_getitem_marks_hot :
    (∀ (m : FilterManager) (k : String),
      (m.getitem k).2.hot_filters.contains k = true ∧
      (m.getitem k).2.filters = m.filters ∧
      (assocFind? m.filters k = none →
        (m.getitem k).1 = .error .keyError ∧
        ¬(∀ n, (m.getitem k).2.hot_filters.contains n = true →
            (assocFind? (m.getitem k).2.filters n).isSome = true))) ∧
    (∀ (st st' : SysState), unmapCold st = .ok st' →
      st'.mgr.hot_filters = []) := by
  constructor
  · intro m k
    have hcont : (insertName m.hot_filters k).contains k = true := by
      unfold insertName
      by_cases h : m.hot_filters.contains k
      · rw [if_pos h]
        exact h
      · rw [if_neg h]
        simp
    refine ⟨hcont, rfl, ?_⟩
    intro hnone
    constructor
    · simp [FilterManager.getitem, hnone]
    · intro hall
      have hsome := hall k hcont
      rw [show (m.getitem k).2.filters = m.filters from rfl, hnone] at hsome
      simp at hsome
  · intro st st' h
    unfold unmapCold at h
    rcases hm : unmapEntries st.mgr.hot_filters st.mgr.filters with err | ⟨fs, evs⟩
    · rw [hm] at h
      exact absurd h (by simp)
    · rw [hm] at h
      simp only [Except.ok.injEq] at h
      rw [← h]

/-- Witness for C9 at concrete inputs: looking up the unregistered name
`ghost` on a fresh manager, and sweeping `demoState`. -/
theorem claim_c9_witness :
    (initState.mgr.getitem "ghost").1 = .error .keyError ∧
    (initState.mgr.getitem "ghost").2.hot_filters.contains "ghost" = true ∧
    sweptDemo.mgr.hot_filters = [] :=
  ⟨((claim_c9_getitem_marks_hot.1 initState.mgr "ghost").2.2 (by decide)).1,
   (claim_c9_getitem_marks_hot.1 initState.mgr "ghost").1,
   claim_c9_getitem_marks_hot.2 demoState sweptDemo (by decide)⟩

/-! ### Claim C10 -/

/-- C10.  `FilterManager.create_filter` performs no duplicate check: on
an already-registered name it succeeds, builds a fresh `Filter` by
discovery over the same directory, and overwrites the registry entry; its
only possible write is the `mkdir` (the previous filter object is neither
flushed nor closed - no config write, no mmap flush, no mmap close).  The
duplicate-name `Exists` reply lives only in `APIHandler.create`. -/
theorem claim_c10_create_filter_overwrites :
    ∀ (st : SysState) (name : String) (custom : Option CustomConfig) (eOld : Entry),
      assocFind? st.mgr.filters name = some eOld →
      (assocFind? (createFilter st name custom).2.1.mgr.filters name
        = some (.active (createFilter st name custom).1)) ∧
      ((createFilter st name custom).1
        = Filter.mk_discover st.mgr.config
            (joinPath st.mgr.config.data_dir (filtPfx ++ name)) custom
            (createFilter st name custom).2.1.disk) ∧
      (∀ ev ∈ (createFilter st name custom).2.2, ∃ p, ev = .mkdirEv p) ∧
      (validNameMatch name = true →
        apiCreate st [name] = (.ok (.str "Exists"), st)) := by
  intro st name custom eOld hold
  have hexists : validNameMatch name = true →
      apiCreate st [name] = (.ok (.str "Exists"), st) := by
    intro hv
    have hn : st.mgr.hasName name = true := by
      simp [FilterManager.hasName, hold]
    simp [apiCreate, hv, hn]
  rcases hdisk : assocFind? st.disk
      (joinPath st.mgr.config.data_dir (filtPfx ++ name)) with _ | dd
  · refine ⟨?_, ?_, ?_, hexists⟩
    · simp only [createFilter, hdisk]
      exact assocFind?_assocSet_self _ _ _
    · simp only [createFilter, hdisk]
    · intro ev hev
      simp only [createFilter, hdisk] at hev
      simp at hev
      exact ⟨_, hev⟩
  · refine ⟨?_, ?_, ?_, hexists⟩
    · simp only [createFilter, hdisk]
      exact assocFind?_assocSet_self _ _ _
    · simp only [createFilter, hdisk]
    · intro ev hev
      simp only [createFilter, hdisk] at hev
      simp at hev

/-- Witness for C10 at a concrete input: re-creating the already
registered `foobar` of `demoState`. -/
theorem claim_c10_witness :
    (assocFind? (createFilter demoState "foobar" none).2.1.mgr.filters "foobar"
      = some (.active (createFilter demoState "foobar" none).1)) ∧
    ((createFilter demoState "foobar" none).1
      = Filter.mk_discover demoState.mgr.config
          (joinPath demoState.mgr.config.data_dir (filtPfx ++ "foobar")) none
          (createFilter demoState "foobar" none).2.1.disk) ∧
    (∀ ev ∈ (createFilter demoState "foobar" none).2.2, ∃ p, ev = .mkdirEv p) ∧
    (validNameMatch "foobar" = true →
      apiCreate demoState ["foobar"] = (.ok (.str "Exists"), demoState)) :=
  claim_c10_create_filter_overwrites demoState "foobar" none
    (.active demoFilter) (by decide)

end Bloomd
